import Mathlib

/-!
Verification of the occurrence-scheduling and attendance engine of the
event-organizer repository.

The development shallowly embeds the Python sources:
  * `config.py`                               (the process settings object)
  * `services/event_service.py`               (occurrence expansion and regeneration)
  * `controllers/event_controller.py`         (event create/update persistence)
  * `controllers/occurrence_controller.py`    (availability windows, check-in, check-out)
  * `models.py`                               (data model, `ParticipantModel.age_on`)

Conventions of the embedding:
  * Instants are modelled as minutes since the Unix epoch (`Int`).  Every
    instant appearing in the source's arithmetic (time windows in `HH:MM`,
    offsets of 2 hours / 40 minutes) is minute-aligned.
  * Calendar dates are `Date` records (year, month, day); `Date.toDays`
    is the standard civil-calendar day-number algorithm, so that
    `weekday = (toDays + 3) % 7` matches Python's `date.weekday()`
    (Monday = 0, witnessed below on the concrete dates of the claims).
  * Python exceptions that escape the code under analysis are modelled with
    `Except`; `try/except` blocks that swallow specific exception classes are
    modelled by the corresponding `Option`-valued parsers.
-/

namespace EventOrganizer

/-- Calendar date, mirroring Python's `datetime.date` triple. -/
structure Date where
  year : Int
  month : Int
  day : Int
deriving DecidableEq, Repr

/-- Day number of a civil date (days since 1970-01-01), the standard
days-from-civil algorithm.  Integer division here is truncation toward zero,
matching the algorithm's reference formulation; all claim-relevant dates are
A.D. years, where the guarded era adjustment keeps every operand nonnegative. -/
def Date.toDays (dt : Date) : Int :=
  let y : Int := if dt.month ≤ 2 then dt.year - 1 else dt.year
  let era : Int := (if 0 ≤ y then y else y - 399) / 400
  let yoe : Int := y - era * 400
  let mp : Int := if dt.month > 2 then dt.month - 3 else dt.month + 9
  let doy : Int := (153 * mp + 2) / 5 + dt.day - 1
  let doe : Int := yoe * 365 + yoe / 4 - yoe / 100 + doy
  era * 146097 + doe - 719468

/-- Python `date.weekday()` on a day number: Monday = 0 … Sunday = 6
(1970-01-01 was a Thursday, hence the +3 shift). -/
def weekdayOfDays (d : Int) : Int :=
  (d + 3).emod 7

/-- Python's default whitespace set for `str.strip()` (the characters that
occur in the claims are the plain space and none at all). -/
def isPySpace (c : Char) : Bool :=
  decide (c = ' ' ∨ c = '\t' ∨ c = '\n' ∨ c = '\r' ∨ c = '\x0b' ∨ c = '\x0c')

/-- Python `str.strip()` on a character list. -/
def stripChars (cs : List Char) : List Char :=
  ((cs.dropWhile isPySpace).reverse.dropWhile isPySpace).reverse

/-- Python `str.split(sep)` for a one-character separator: the string is cut
at every occurrence of the separator (`"".split(sep)` is `[""]`,
`"-".split("-")` is `["", ""]`). -/
def splitOnChar (sep : Char) : List Char → List (List Char)
  | [] => [[]]
  | c :: rest =>
    let r := splitOnChar sep rest
    if c = sep then [] :: r
    else
      match r with
      | [] => [[c]]
      | g :: gs => (c :: g) :: gs

/-- Python `int(s)` on a character list: optional surrounding whitespace,
optional sign, at least one decimal digit; `none` is the `ValueError` branch.
Digit-grouping underscores are not modelled; no claim uses them. -/
def pyIntChars? (cs : List Char) : Option Int :=
  let t := stripChars cs
  let (sign, ds) : Int × List Char :=
    match t with
    | c :: rest =>
      if c = '-' then (-1, rest)
      else if c = '+' then (1, rest) else (1, t)
    | [] => (1, [])
  if ds ≠ [] ∧ ds.all (fun c => c.isDigit) then
    some (sign * (ds.foldl (fun acc c => acc * 10 + (c.toNat - 48)) 0 : Nat))
  else none

/-- Python `int(s)` on a string. -/
def pyInt? (s : String) : Option Int :=
  pyIntChars? s.toList

/-- Parsing of one side of a time window, mirroring
`start_time_str.strip().split(":")` unpacked through `map(int, …)`:
exactly two colon-separated fields, each a Python integer. -/
def parseHM (cs : List Char) : Option (Int × Int) :=
  match splitOnChar ':' (stripChars cs) with
  | [h, m] =>
    match pyIntChars? h with
    | none => none
    | some hv =>
      match pyIntChars? m with
      | none => none
      | some mv => some (hv, mv)
  | _ => none

/-- Parsing of a `"HH:MM-HH:MM"` time window, mirroring
`time_window.split("-")` unpacked into exactly two parts (a different number
of parts raises `ValueError`, caught by the surrounding `except`). -/
def pyParseTimeWindow (w : String) : Option (Int × Int × Int × Int) :=
  match splitOnChar '-' w.toList with
  | [a, b] =>
    match parseHM a with
    | none => none
    | some (sh, sm) =>
      match parseHM b with
      | none => none
      | some (eh, em) => some (sh, sm, eh, em)
  | _ => none

/-- Range validation performed by `datetime.replace(hour=…, minute=…)`:
hour in 0..23 and minute in 0..59, else `ValueError`. -/
def validHM (h m : Int) : Bool :=
  decide (0 ≤ h ∧ h ≤ 23 ∧ 0 ≤ m ∧ m ≤ 59)

/-- UTC offset, in minutes, of the IANA zones relevant to the claims, as
resolved by `zoneinfo.ZoneInfo`.  America/Sao_Paulo is UTC-3 with no daylight
saving time (abolished in 2019; every claim date is in 2024). -/
def zoneOffsetMinutes (zone : String) : Int :=
  if zone = "America/Sao_Paulo" then -180 else 0

/-- Absolute UTC instant (minutes since epoch) of a local wall-clock time on a
given day in a given zone: `datetime.replace(tzinfo=ZoneInfo(zone))` followed
by `astimezone(ZoneInfo("UTC"))`. -/
def localToUtc (zone : String) (day h m : Int) : Int :=
  day * 1440 + h * 60 + m - zoneOffsetMinutes zone

/-- Python exceptions that escape the embedded code. -/
inductive PyErr where
  /-- Attribute lookup failed on an object (Python `AttributeError`). -/
  | attributeError : PyErr
deriving DecidableEq, Repr

/-- Attributes defined on the `Settings` dataclass of `config.py`:
`database_url` and `secret_key` only. -/
def settingsAttributes : List String := ["database_url", "secret_key"]

/-- Result of the attribute lookup `settings.timezone` performed by
`event_service.py` and `occurrence_controller.py`: `config.py`'s `Settings`
dataclass defines only `database_url` and `secret_key`, so the lookup finds
nothing (`AttributeError` is raised at the use sites; the embedding raises it
where the code dereferences this value). -/
def settingsTimezone : Option String := none

/-- Occurrence record as constructed by `EventService`
(`EventOccurrenceModel(event_id=…, start_at=…, end_at=…)`); the
database-assigned surrogate `id` is not part of any claim and is not
modelled.  `start_at`/`end_at` are UTC instants in minutes since epoch. -/
structure EventOccurrenceModel where
  event_id : Int
  start_at : Int
  end_at : Int
deriving DecidableEq, Repr

/-- Recurrence rule JSON of `EventModel.recurrence_rule` as produced by the
event form controller: `rule.get("weekdays", [])` and
`rule.get("time_windows", [])`, both lists of strings (an absent key and an
empty list are indistinguishable downstream, both being falsy). -/
structure RecurrenceRule where
  weekdays : List String
  time_windows : List String
deriving DecidableEq, Repr

/-- Event record mirroring `EventModel` of `models.py` (schedule-relevant
fields; `single_start`/`single_end` are UTC instants in minutes). -/
structure EventModel where
  id : Int
  name : String
  is_recurring : Bool
  single_start : Option Int
  single_end : Option Int
  recurrence_start_date : Option Date
  recurrence_end_date : Option Date
  recurrence_rule : Option RecurrenceRule
deriving DecidableEq, Repr

/-- Processing of one time window of one day inside the loop of
`EventService._generate_recurring_occurrences`, with the timezone attribute
lookup result as a parameter.  Faithful to the source's evaluation order:
`split`/`int` parsing first (a `ValueError` there is caught — the window is
skipped, `.ok none`), then `ZoneInfo(settings.timezone)` (an `AttributeError`
there is NOT caught by `except (ValueError, IndexError)` and escapes), then
the `replace(hour=…, minute=…)` range validation (`ValueError`, caught →
skipped). -/
def processTimeWindow (tz? : Option String) (day : Int) (w : String) :
    Except PyErr (Option (Int × Int)) :=
  match pyParseTimeWindow w with
  | none => .ok none
  | some (sh, sm, eh, em) =>
    match tz? with
    | none => .error .attributeError
    | some zone =>
      if validHM sh sm then
        if validHM eh em then
          .ok (some (localToUtc zone day sh sm, localToUtc zone day eh em))
        else .ok none
      else .ok none

/-- Inner `for time_window in time_windows` loop for one matching day:
windows are processed in declared order, skipped windows contribute nothing,
and an uncaught exception aborts the whole call. -/
def genWindows (tz? : Option String) (eid day : Int) :
    List String → Except PyErr (List EventOccurrenceModel)
  | [] => .ok []
  | w :: ws =>
    match processTimeWindow tz? day w with
    | .error err => .error err
    | .ok o? =>
      match genWindows tz? eid day ws with
      | .error err => .error err
      | .ok rest =>
        match o? with
        | none => .ok rest
        | some (s, e) => .ok (⟨eid, s, e⟩ :: rest)

/-- Outer `while current_date <= end_date` loop: `n` is the number of days
left to visit and `d` the current day number; days whose weekday is not in
the converted weekday list are passed over. -/
def genDays (tz? : Option String) (eid : Int) (wds : List Int)
    (windows : List String) : Nat → Int → Except PyErr (List EventOccurrenceModel)
  | 0, _ => .ok []
  | Nat.succ n, d =>
    if weekdayOfDays d ∈ wds then
      match genWindows tz? eid d windows with
      | .error err => .error err
      | .ok occs =>
        match genDays tz? eid wds windows n (d + 1) with
        | .error err => .error err
        | .ok rest => .ok (occs ++ rest)
    else genDays tz? eid wds windows n (d + 1)

/-- Embedding of the list comprehension `[int(day) for day in weekdays]`
inside its `try`: entries are converted left to right, and the first failing
conversion abandons the comprehension (the caught `ValueError`/`TypeError`). -/
def convertWeekdays : List String → Option (List Int)
  | [] => some []
  | d :: ds =>
    match pyInt? d with
    | none => none
    | some v =>
      match convertWeekdays ds with
      | none => none
      | some vs => some (v :: vs)

/-- Embedding of `EventService._generate_recurring_occurrences`, with the
`settings.timezone` attribute-lookup result as the explicit parameter `tz?`.
Guard clauses return the empty list: missing rule/start/end (a rule that is
an empty dict is falsy too, and leads to the same result through the second
guard), empty `weekdays` or `time_windows`, and a weekday list whose
`[int(day) for day in weekdays]` conversion raises (`return occurrences` in
the `except` — the whole expansion is abandoned with no error).  The day loop
runs from `recurrence_start_date` to `recurrence_end_date` inclusive. -/
def generateRecurringWithTz (tz? : Option String) (e : EventModel) :
    Except PyErr (List EventOccurrenceModel) :=
  match e.recurrence_rule, e.recurrence_start_date, e.recurrence_end_date with
  | some rule, some sd, some ed =>
    if rule.weekdays = [] ∨ rule.time_windows = [] then .ok []
    else
      match convertWeekdays rule.weekdays with
      | none => .ok []
      | some wds =>
        let s := sd.toDays
        genDays tz? e.id wds rule.time_windows (ed.toDays - s + 1).toNat s
  | _, _, _ => .ok []

/-- Embedding of `EventService.generate_occurrences` restricted to the pure
expansion it computes (the surrounding delete/insert is `regenerate` below),
with the timezone lookup result as a parameter: recurring events go through
`_generate_recurring_occurrences`; one-off events yield a single occurrence
when both `single_start` and `single_end` are set, nothing otherwise. -/
def generateOccurrencesWithTz (tz? : Option String) (e : EventModel) :
    Except PyErr (List EventOccurrenceModel) :=
  if e.is_recurring then generateRecurringWithTz tz? e
  else
    match e.single_start, e.single_end with
    | some s, some en => .ok [⟨e.id, s, en⟩]
    | _, _ => .ok []

/-- The expansion as the committed code runs it: the timezone it passes to
`ZoneInfo` is the (failing) attribute lookup `settings.timezone`. -/
def generate_occurrences (e : EventModel) : Except PyErr (List EventOccurrenceModel) :=
  generateOccurrencesWithTz settingsTimezone e

/-- Persisted application state relevant to the scheduling claims: the events
table and the event_occurrences table. -/
structure AppState where
  events : List EventModel
  occurrences : List EventOccurrenceModel
deriving DecidableEq, Repr

/-- Occurrence rows persisted for a given event
(`select … where EventOccurrenceModel.event_id == event.id`). -/
def occurrencesOf (s : AppState) (eid : Int) : List EventOccurrenceModel :=
  s.occurrences.filter (fun o => o.event_id == eid)

/-- Store effect of `EventService.generate_occurrences`: delete every
occurrence of the event, then insert the freshly expanded ones, in one unit
of work.  When the expansion raises, the exception propagates before the
session is flushed and the transaction rolls back, leaving the store as it
was. -/
def regenerate (tz? : Option String) (e : EventModel) (s : AppState) :
    AppState × Except PyErr (List EventOccurrenceModel) :=
  match generateOccurrencesWithTz tz? e with
  | .ok occs =>
    ({ s with occurrences := s.occurrences.filter (fun o => !(o.event_id == e.id)) ++ occs },
     .ok occs)
  | .error err => (s, .error err)

/-- Store effect of `EventController.create_event`: the parsed form is handed
to the generic repository `events_service.create`, which inserts the event
row (the `occurrences` field of the schema defaults to the empty list).  No
statement in the repository calls `EventService.generate_occurrences` — the
function has no call site — so no occurrence row is written. -/
def create_event (s : AppState) (e : EventModel) : AppState :=
  { s with events := s.events ++ [e] }

/-- Store effect of `EventController.update_event`: the parsed form is handed
to `events_service.update(item_id=event_id)`, which rewrites the matching
event row.  As with creation, `generate_occurrences` is not invoked and the
occurrences table is untouched. -/
def update_event (s : AppState) (eid : Int) (e : EventModel) : AppState :=
  { s with events := s.events.map (fun old => if old.id == eid then { e with id := old.id } else old) }

/-- Participant record of `models.py` (claim-relevant fields). -/
structure ParticipantModel where
  id : Int
  full_name : String
  birth_date : Date
  guardian_id : Option Int
deriving DecidableEq, Repr

/-- Embedding of `ParticipantModel.age_on`: year difference, minus one when
the reference (month, day) pair precedes the birthday's, by tuple order. -/
def ParticipantModel.age_on (p : ParticipantModel) (on_date : Date) : Int :=
  let years := on_date.year - p.birth_date.year
  let before_birthday : Bool :=
    decide (on_date.month < p.birth_date.month ∨
      (on_date.month = p.birth_date.month ∧ on_date.day < p.birth_date.day))
  years - (if before_birthday then 1 else 0)

/-- Attendance row of `models.py`; instants in minutes since epoch (UTC). -/
structure AttendanceModel where
  occurrence_id : Int
  participant_id : Int
  checkin_at : Int
  checkout_at : Option Int
  code_hash : Option String
  checkout_by_participant_id : Option Int
deriving DecidableEq, Repr

/-- Embedding of `OccurrenceController._is_checkin_available` for tz-aware
stored occurrences (the schema declares the columns timezone-aware): the
current instant is the `now` parameter, and the window is
`[start_at - 2 hours, end_at - 40 minutes]`, inclusive on both ends. -/
def is_checkin_available (occ : EventOccurrenceModel) (now : Int) : Bool :=
  decide (occ.start_at - 120 ≤ now ∧ now ≤ occ.end_at - 40)

/-- Embedding of `OccurrenceController._is_checkout_available`: the window is
`[start_at, end_at]`, inclusive on both ends. -/
def is_checkout_available (occ : EventOccurrenceModel) (now : Int) : Bool :=
  decide (occ.start_at ≤ now ∧ now ≤ occ.end_at)

/-- Lowercase hexadecimal digit character of a value below 16. -/
def hexCharLower (n : Nat) : Char :=
  if n < 10 then Char.ofNat (48 + n) else Char.ofNat (87 + n)

/-- Embedding of `secrets.token_hex` applied to the bytes drawn from the
CSPRNG: each byte becomes two lowercase hex digits. -/
def token_hex (bytes : List Nat) : String :=
  String.mk (bytes.foldr (fun b acc => hexCharLower (b / 16) :: hexCharLower (b % 16) :: acc) [])

/-- Python `str.upper()` on one ASCII character (the strings it is applied
to here are hexadecimal). -/
def pyUpperChar (c : Char) : Char :=
  if 'a' ≤ c ∧ c ≤ 'z' then Char.ofNat (c.toNat - 32) else c

/-- Python `str.upper()` restricted to ASCII. -/
def pyUpper (s : String) : String :=
  String.mk (s.toList.map pyUpperChar)

/-- Errors with which `OccurrenceController.checkin` rejects a request (the
controller renders them as flash messages; the taxonomy follows the spec's
names for the same conditions). -/
inductive CheckinError where
  | windowClosed : CheckinError
  | alreadyCheckedIn : CheckinError
deriving DecidableEq, Repr

/-- Errors with which `OccurrenceController.checkout` rejects a request. -/
inductive CheckoutError where
  | windowClosed : CheckoutError
  | notCheckedIn : CheckoutError
  | alreadyCheckedOut : CheckoutError
  | codeRequired : CheckoutError
  | invalidCode : CheckoutError
deriving DecidableEq, Repr

/-- Embedding of the decision core of `OccurrenceController.checkin` (after
form parsing): reject when the check-in window is closed, then when an
attendance row already exists for the (occurrence, participant) pair; then,
when the participant's age today is under 18, generate the code
`secrets.token_hex(3).upper()` (the parameter `entropy` is the byte string
drawn from the CSPRNG) and store only its hash (`hashFn` stands for the
`hashlib.sha256(…).hexdigest()` pipeline); persist the attendance row and
hand the plaintext code (or `none` for an adult) back to the caller.  The
controller reads the clock once for the window check and once for
`checkin_at`; the claims do not distinguish the two readings and both are
modelled as `now`. -/
def checkin (hashFn : String → String) (occurrence_id : Int)
    (occ : EventOccurrenceModel) (p : ParticipantModel)
    (existing : Option AttendanceModel) (today : Date) (now : Int)
    (entropy : List Nat) : Except CheckinError (AttendanceModel × Option String) :=
  if ¬ is_checkin_available occ now then .error .windowClosed
  else if existing.isSome then .error .alreadyCheckedIn
  else
    let code? : Option String :=
      if p.age_on today < 18 then some (pyUpper (token_hex entropy)) else none
    .ok ({ occurrence_id := occurrence_id, participant_id := p.id, checkin_at := now,
           checkout_at := none, code_hash := code?.map hashFn,
           checkout_by_participant_id := none },
         code?)

/-- Embedding of the decision core of `OccurrenceController.checkout`: reject
when the check-out window is closed, when no attendance row exists, or when
`checkout_at` is already set; for a participant under 18 today, reject an
empty supplied code (`code` is the form value after `.strip()`), then reject
when the stored `code_hash` differs from the hash of the supplied code; on
success set `checkout_at = now` and `checkout_by_participant_id`.  For a
participant aged 18 or over the code is never examined. -/
def checkout (hashFn : String → String) (occ : EventOccurrenceModel)
    (p : ParticipantModel) (attendance : Option AttendanceModel)
    (checkout_by_participant_id : Int) (code : String) (today : Date)
    (now : Int) : Except CheckoutError AttendanceModel :=
  if ¬ is_checkout_available occ now then .error .windowClosed
  else
    match attendance with
    | none => .error .notCheckedIn
    | some att =>
      if att.checkout_at.isSome then .error .alreadyCheckedOut
      else
        if p.age_on today < 18 then
          if code = "" then .error .codeRequired
          else if att.code_hash ≠ some (hashFn code) then .error .invalidCode
          else .ok { att with checkout_at := some now,
                              checkout_by_participant_id := some checkout_by_participant_id }
        else .ok { att with checkout_at := some now,
                            checkout_by_participant_id := some checkout_by_participant_id }

/-- Lookup of `AttendanceService.get_by_occurrence_and_participant` on the
attendance table. -/
def findAttendance (store : List AttendanceModel) (oid pid : Int) :
    Option AttendanceModel :=
  store.find? (fun a => a.occurrence_id == oid && a.participant_id == pid)

/-- Check-in as a transition on the persisted attendance table: a rejected
request writes nothing (the controller returns the error template without
calling `attendance_service.create`); a successful one inserts the new row. -/
def checkinOp (hashFn : String → String) (store : List AttendanceModel)
    (oid : Int) (occ : EventOccurrenceModel) (p : ParticipantModel)
    (today : Date) (now : Int) (entropy : List Nat) :
    List AttendanceModel × Except CheckinError (Option String) :=
  match checkin hashFn oid occ p (findAttendance store oid p.id) today now entropy with
  | .error err => (store, .error err)
  | .ok (att, code?) => (store ++ [att], .ok code?)

/-- Check-out as a transition on the persisted attendance table: a rejected
request writes nothing; a successful one updates the row of the pair in
place (`attendance_service.update(item_id=(occurrence_id, participant_id))`). -/
def checkoutOp (hashFn : String → String) (store : List AttendanceModel)
    (oid : Int) (occ : EventOccurrenceModel) (p : ParticipantModel)
    (checkout_by : Int) (code : String) (today : Date) (now : Int) :
    List AttendanceModel × Except CheckoutError Unit :=
  match checkout hashFn occ p (findAttendance store oid p.id) checkout_by code today now with
  | .error err => (store, .error err)
  | .ok att =>
    (store.map (fun a =>
       if a.occurrence_id == oid && a.participant_id == p.id then att else a),
     .ok ())

/-- Uppercase alphanumeric ASCII character. -/
def isUpperAlnum (c : Char) : Bool :=
  decide (('A' ≤ c ∧ c ≤ 'Z') ∨ ('0' ≤ c ∧ c ≤ '9'))

/-! ### Structural lemmas about the expansion -/

/-- Every occurrence emitted by the inner window loop carries the event id it
was called with. -/
lemma genWindows_eid (tz? : Option String) (eid day : Int) :
    ∀ (ws : List String) (l : List EventOccurrenceModel),
      genWindows tz? eid day ws = .ok l → ∀ o ∈ l, o.event_id = eid := by
  intro ws
  induction ws with
  | nil =>
    intro l h o ho
    simp only [genWindows] at h
    injection h with h
    subst h
    cases ho
  | cons w ws ih =>
    intro l h o ho
    simp only [genWindows] at h
    cases hpw : processTimeWindow tz? day w with
    | error err => rw [hpw] at h; cases h
    | ok o? =>
      rw [hpw] at h
      cases hws : genWindows tz? eid day ws with
      | error err => rw [hws] at h; cases h
      | ok rest =>
        rw [hws] at h
        cases o? with
        | none =>
          injection h with h
          subst h
          exact ih rest hws o ho
        | some se =>
          obtain ⟨se1, se2⟩ := se
          injection h with h
          subst h
          rcases List.mem_cons.mp ho with rfl | ho2
          · rfl
          · exact ih rest hws o ho2

/-- Every occurrence emitted by the day loop carries the event id it was
called with. -/
lemma genDays_eid (tz? : Option String) (eid : Int) (wds : List Int)
    (windows : List String) :
    ∀ (n : Nat) (d : Int) (l : List EventOccurrenceModel),
      genDays tz? eid wds windows n d = .ok l → ∀ o ∈ l, o.event_id = eid := by
  intro n
  induction n with
  | zero =>
    intro d l h o ho
    simp only [genDays] at h
    injection h with h
    subst h
    cases ho
  | succ n ih =>
    intro d l h o ho
    simp only [genDays] at h
    by_cases hwd : weekdayOfDays d ∈ wds
    · rw [if_pos hwd] at h
      cases hgw : genWindows tz? eid d windows with
      | error err => rw [hgw] at h; cases h
      | ok occs =>
        rw [hgw] at h
        cases hgd : genDays tz? eid wds windows n (d + 1) with
        | error err => rw [hgd] at h; cases h
        | ok rest =>
          rw [hgd] at h
          injection h with h
          subst h
          rcases List.mem_append.mp ho with ho1 | ho2
          · exact genWindows_eid tz? eid d windows occs hgw o ho1
          · exact ih (d + 1) rest hgd o ho2
    · rw [if_neg hwd] at h
      exact ih (d + 1) l h o ho

/-- Every occurrence the expansion returns carries the expanded event's id. -/
lemma generateOccurrences_eid (tz? : Option String) (e : EventModel)
    (l : List EventOccurrenceModel)
    (h : generateOccurrencesWithTz tz? e = .ok l) : ∀ o ∈ l, o.event_id = e.id := by
  intro o ho
  by_cases hrec : e.is_recurring = true
  · simp only [generateOccurrencesWithTz, hrec, if_true] at h
    cases hrule : e.recurrence_rule with
    | none =>
      simp only [generateRecurringWithTz, hrule] at h
      injection h with h; subst h; cases ho
    | some r =>
      cases hsd : e.recurrence_start_date with
      | none =>
        simp only [generateRecurringWithTz, hrule, hsd] at h
        injection h with h; subst h; cases ho
      | some sd =>
        cases hed : e.recurrence_end_date with
        | none =>
          simp only [generateRecurringWithTz, hrule, hsd, hed] at h
          injection h with h; subst h; cases ho
        | some ed =>
          simp only [generateRecurringWithTz, hrule, hsd, hed] at h
          by_cases hguard : r.weekdays = [] ∨ r.time_windows = []
          · rw [if_pos hguard] at h
            injection h with h; subst h; cases ho
          · rw [if_neg hguard] at h
            cases hcw : convertWeekdays r.weekdays with
            | none =>
              rw [hcw] at h
              injection h with h; subst h; cases ho
            | some wds =>
              rw [hcw] at h
              exact genDays_eid tz? e.id wds r.time_windows _ _ l h o ho
  · simp only [generateOccurrencesWithTz, hrec, if_false] at h
    cases hss : e.single_start with
    | none =>
      rw [hss] at h
      cases hse : e.single_end <;> rw [hse] at h <;>
        (injection h with h; subst h; cases ho)
    | some s =>
      cases hse : e.single_end with
      | none =>
        rw [hss, hse] at h
        injection h with h; subst h; cases ho
      | some en =>
        rw [hss, hse] at h
        injection h with h; subst h
        rcases List.mem_cons.mp ho with rfl | ho2
        · rfl
        · cases ho2

/-- Filtering for an event id after filtering it away yields nothing. -/
lemma filter_eid_opposite (xs : List EventOccurrenceModel) (eid : Int) :
    (xs.filter (fun o => !(o.event_id == eid))).filter (fun o => o.event_id == eid) = [] := by
  induction xs with
  | nil => rfl
  | cons x xs ih =>
    cases hx : (x.event_id == eid) <;>
      simp [List.filter_cons, hx, ih]

/-- A list whose members all carry the event id is untouched by the matching
filter and emptied by the opposite filter. -/
lemma filter_eid_of_all (l : List EventOccurrenceModel) (eid : Int)
    (hall : ∀ o ∈ l, o.event_id = eid) :
    l.filter (fun o => o.event_id == eid) = l ∧
    l.filter (fun o => !(o.event_id == eid)) = [] := by
  induction l with
  | nil => exact ⟨rfl, rfl⟩
  | cons x xs ih =>
    have hx : x.event_id = eid := hall x (List.mem_cons_self x xs)
    have ihx := ih (fun o ho => hall o (List.mem_cons_of_mem x ho))
    constructor <;> simp [List.filter_cons, hx, ihx.1, ihx.2]

/-- Uppercasing a lowercase hex digit character yields an uppercase
alphanumeric character. -/
lemma hexCharLower_upper_alnum (n : Nat) (h : n < 16) :
    isUpperAlnum (pyUpperChar (hexCharLower n)) = true := by
  interval_cases n <;> decide

/-- The hex encoding of a byte string has two characters per byte. -/
lemma token_hex_length (bytes : List Nat) :
    (token_hex bytes).length = 2 * bytes.length := by
  suffices h : ∀ bs : List Nat,
      (bs.foldr (fun b acc => hexCharLower (b / 16) :: hexCharLower (b % 16) :: acc) []).length
        = 2 * bs.length by
    exact h bytes
  intro bs
  induction bs with
  | nil => rfl
  | cons b bs2 ih =>
    simp only [List.foldr_cons, List.length_cons, ih]
    omega

/-- Every character of the hex encoding of a byte string is a lowercase hex
digit character. -/
lemma token_hex_chars (bytes : List Nat) (hb : ∀ b ∈ bytes, b < 256) :
    ∀ c ∈ (token_hex bytes).toList, ∃ n, n < 16 ∧ c = hexCharLower n := by
  induction bytes with
  | nil => intro c hc; cases hc
  | cons b bs ih =>
    intro c hc
    have hb0 : b < 256 := hb b (List.mem_cons_self b bs)
    simp only [token_hex, String.toList] at hc ih
    rcases List.mem_cons.mp hc with rfl | hc2
    · exact ⟨b / 16, by omega, rfl⟩
    · rcases List.mem_cons.mp hc2 with rfl | hc3
      · exact ⟨b % 16, by omega, rfl⟩
      · exact ih (fun x hx => hb x (List.mem_cons_of_mem b hx)) c hc3

/-- The generated plaintext code has length twice the number of random bytes
and consists of uppercase alphanumeric characters only. -/
lemma code_shape (bytes : List Nat) (hb : ∀ b ∈ bytes, b < 256) :
    (pyUpper (token_hex bytes)).length = 2 * bytes.length ∧
    ∀ c ∈ (pyUpper (token_hex bytes)).toList, isUpperAlnum c = true := by
  constructor
  · have h1 : (pyUpper (token_hex bytes)).length =
        ((token_hex bytes).toList.map pyUpperChar).length := rfl
    have h2 : (token_hex bytes).toList.length = (token_hex bytes).length := rfl
    rw [h1, List.length_map, h2, token_hex_length]
  · intro c hc
    simp only [pyUpper, String.toList] at hc
    obtain ⟨c0, hc0, rfl⟩ := List.mem_map.mp hc
    obtain ⟨n, hn, rfl⟩ := token_hex_chars bytes hb c0 hc0
    exact hexCharLower_upper_alnum n hn

/-! ### Claim theorems -/

/-- One-off event used for claim C1: a non-recurring event whose single
window is set. -/
def c1Event : EventModel :=
  { id := 1, name := "Workshop", is_recurring := false,
    single_start := some 100, single_end := some 200,
    recurrence_start_date := none, recurrence_end_date := none,
    recurrence_rule := none }

/-- Schedule update for claim C1: the same event with a changed single
window. -/
def c1Updated : EventModel :=
  { c1Event with single_start := some 300, single_end := some 400 }

/-- C1: the claim says creating an event, or updating its schedule-relevant
fields, triggers occurrence regeneration, so that the persisted occurrence
set then equals the expansion of the current schedule.  The code never
invokes `EventService.generate_occurrences` (the function has no call site in
the repository): after `create_event`, and again after a schedule-changing
`update_event`, the persisted occurrence set of the event is empty, while the
expansion of the stored schedule is the non-empty single-window occurrence
list in both cases. -/
theorem c1_create_and_update_never_regenerate :
    occurrencesOf (create_event ⟨[], []⟩ c1Event) 1 = [] ∧
    generate_occurrences c1Event = .ok [⟨1, 100, 200⟩] ∧
    occurrencesOf (update_event (create_event ⟨[], []⟩ c1Event) 1 c1Updated) 1 = [] ∧
    generate_occurrences c1Updated = .ok [⟨1, 300, 400⟩] :=
  ⟨rfl, rfl, rfl, rfl⟩

/-- Recurring event of the claim C2 scenario: 2024-01-01 to 2024-01-14,
weekdays Monday and Wednesday, one 10:00-12:00 local window. -/
def c2Event : EventModel :=
  { id := 1, name := "Scenario", is_recurring := true,
    single_start := none, single_end := none,
    recurrence_start_date := some ⟨2024, 1, 1⟩,
    recurrence_end_date := some ⟨2024, 1, 14⟩,
    recurrence_rule := some { weekdays := ["0", "2"], time_windows := ["10:00-12:00"] } }

/-- C2: on the scenario event the committed code raises `AttributeError` —
`config.py`'s `Settings` defines no `timezone` attribute, so the
`ZoneInfo(settings.timezone)` conversion fails for every window — whereas the
same expansion given the intended America/Sao_Paulo timezone produces exactly
the four claimed occurrences: January 1, 3, 8 and 10 of 2024, each starting
13:00 UTC and ending 15:00 UTC (10:00-12:00 local at UTC-3). -/
theorem c2_sao_paulo_scenario :
    generate_occurrences c2Event = .error .attributeError ∧
    generateOccurrencesWithTz (some "America/Sao_Paulo") c2Event =
      .ok [⟨1, (Date.toDays ⟨2024, 1, 1⟩) * 1440 + 13 * 60, (Date.toDays ⟨2024, 1, 1⟩) * 1440 + 15 * 60⟩,
           ⟨1, (Date.toDays ⟨2024, 1, 3⟩) * 1440 + 13 * 60, (Date.toDays ⟨2024, 1, 3⟩) * 1440 + 15 * 60⟩,
           ⟨1, (Date.toDays ⟨2024, 1, 8⟩) * 1440 + 13 * 60, (Date.toDays ⟨2024, 1, 8⟩) * 1440 + 15 * 60⟩,
           ⟨1, (Date.toDays ⟨2024, 1, 10⟩) * 1440 + 13 * 60, (Date.toDays ⟨2024, 1, 10⟩) * 1440 + 15 * 60⟩] :=
  ⟨rfl, rfl⟩

/-- C7: check-in availability holds exactly on the closed interval from
`start_at` minus 2 hours to `end_at` minus 40 minutes, and check-out
availability exactly on the closed interval from `start_at` to `end_at`,
inclusive at both endpoints. -/
theorem c7_availability_windows (occ : EventOccurrenceModel) (now : Int) :
    (is_checkin_available occ now = true ↔
      occ.start_at - 120 ≤ now ∧ now ≤ occ.end_at - 40) ∧
    (is_checkout_available occ now = true ↔
      occ.start_at ≤ now ∧ now ≤ occ.end_at) := by
  constructor <;>
    simp [is_checkin_available, is_checkout_available]

/-- Recurring event used for claim C3: `is_recurring` is set but the
recurrence rule is absent. -/
def c3MissingEvent : EventModel :=
  { id := 3, name := "NoRule", is_recurring := true,
    single_start := none, single_end := none,
    recurrence_start_date := some ⟨2024, 1, 1⟩,
    recurrence_end_date := some ⟨2024, 1, 14⟩,
    recurrence_rule := none }

/-- C3 counterexample: the claim says expansion of a recurring event with an
absent recurrence rule fails with a `MissingRecurrenceData` error rather than
succeeding with an empty occurrence sequence; the code has no such error and
returns the empty list successfully. -/
theorem c3_missing_rule_counterexample :
    generate_occurrences c3MissingEvent = .ok [] ∧
    ¬ ∃ err, generate_occurrences c3MissingEvent = .error err := by
  refine ⟨rfl, ?_⟩
  rintro ⟨err, h⟩
  simp [generate_occurrences, generateOccurrencesWithTz, generateRecurringWithTz,
    c3MissingEvent] at h

/-- C3 amended: for every recurring event, expansion returns the empty
occurrence sequence — signaling no error — whenever the recurrence rule, the
recurrence start date or the recurrence end date is absent, or the rule's
weekday list or time-window list is empty. -/
theorem c3_missing_data_yields_empty (tz? : Option String) (e : EventModel)
    (hrec : e.is_recurring = true)
    (h : e.recurrence_rule = none ∨ e.recurrence_start_date = none ∨
         e.recurrence_end_date = none ∨
         ∃ r, e.recurrence_rule = some r ∧ (r.weekdays = [] ∨ r.time_windows = [])) :
    generateOccurrencesWithTz tz? e = .ok [] := by
  have hg : generateOccurrencesWithTz tz? e = generateRecurringWithTz tz? e := by
    simp [generateOccurrencesWithTz, hrec]
  rw [hg]
  cases hrule : e.recurrence_rule with
  | none => simp [generateRecurringWithTz, hrule]
  | some r =>
    cases hsd : e.recurrence_start_date with
    | none => simp [generateRecurringWithTz, hrule, hsd]
    | some sd =>
      cases hed : e.recurrence_end_date with
      | none => simp [generateRecurringWithTz, hrule, hsd, hed]
      | some ed =>
        rcases h with h | h | h | ⟨r2, hr2, hwt⟩
        · rw [hrule] at h; cases h
        · rw [hsd] at h; cases h
        · rw [hed] at h; cases h
        · rw [hrule] at hr2
          injection hr2 with hr2
          subst hr2
          rcases hwt with hwt | hwt <;>
            simp [generateRecurringWithTz, hrule, hsd, hed, hwt]

/-- C3 witness: the amended theorem applied to the concrete rule-less
recurring event. -/
theorem c3_missing_data_yields_empty_witness :
    c3MissingEvent.is_recurring = true ∧
    generateOccurrencesWithTz none c3MissingEvent = .ok [] :=
  ⟨rfl, c3_missing_data_yields_empty none c3MissingEvent rfl (Or.inl rfl)⟩

/-- Recurring event used for claim C4: a single matching day whose only time
window has equal start and end times. -/
def c4Event : EventModel :=
  { id := 4, name := "Inverted", is_recurring := true,
    single_start := none, single_end := none,
    recurrence_start_date := some ⟨2024, 1, 1⟩,
    recurrence_end_date := some ⟨2024, 1, 1⟩,
    recurrence_rule := some { weekdays := ["0"], time_windows := ["10:00-10:00"] } }

/-- The UTC instant produced for both ends of the degenerate window of
`c4Event` (10:00 America/Sao_Paulo on 2024-01-01). -/
def c4Instant : Int := (Date.toDays ⟨2024, 1, 1⟩) * 1440 + 13 * 60

/-- C4 counterexample: the claim says the local-window-to-UTC conversion
fails with `InvalidWindow` whenever a window's start time is not before its
end time, and that expansion never emits an interval whose start is not
strictly before its end.  The code has no such validation: given the intended
timezone, the degenerate window "10:00-10:00" is converted and emitted as an
occurrence whose start and end instants are equal; and in the committed code
the conversion instead raises `AttributeError` (the timezone setting does not
exist), which is not an `InvalidWindow` rejection either. -/
theorem c4_inverted_window_counterexample :
    generateOccurrencesWithTz (some "America/Sao_Paulo") c4Event =
      .ok [⟨4, c4Instant, c4Instant⟩] ∧
    ¬ c4Instant < c4Instant ∧
    generate_occurrences c4Event = .error .attributeError :=
  ⟨rfl, by decide, rfl⟩

/-- C4 amended: expansion performs no start-before-end validation on time
windows and has no `InvalidWindow` error.  A parseable, in-range window whose
end time is not after its start time is converted — given a configured
timezone — into an emitted interval whose end instant is at most its start
instant; and under the committed configuration (no `timezone` attribute) the
conversion of any parseable window raises `AttributeError` instead of any
window-order rejection. -/
theorem c4_no_invalid_window_validation (zone : String) (day : Int) (w : String)
    (sh sm eh em : Int) (hparse : pyParseTimeWindow w = some (sh, sm, eh, em))
    (hs : validHM sh sm = true) (he : validHM eh em = true)
    (hord : eh * 60 + em ≤ sh * 60 + sm) :
    processTimeWindow (some zone) day w =
      .ok (some (localToUtc zone day sh sm, localToUtc zone day eh em)) ∧
    localToUtc zone day eh em ≤ localToUtc zone day sh sm ∧
    processTimeWindow settingsTimezone day w = .error .attributeError := by
  refine ⟨?_, ?_, ?_⟩
  · simp [processTimeWindow, hparse, hs, he]
  · simp only [localToUtc]; omega
  · simp [processTimeWindow, settingsTimezone, hparse]

/-- C4 witness: the amended theorem applied to the degenerate window
"10:00-10:00" on 2024-01-01 in America/Sao_Paulo. -/
theorem c4_no_invalid_window_validation_witness :
    processTimeWindow (some "America/Sao_Paulo") (Date.toDays ⟨2024, 1, 1⟩) "10:00-10:00" =
      .ok (some (localToUtc "America/Sao_Paulo" (Date.toDays ⟨2024, 1, 1⟩) 10 0,
                 localToUtc "America/Sao_Paulo" (Date.toDays ⟨2024, 1, 1⟩) 10 0)) ∧
    localToUtc "America/Sao_Paulo" (Date.toDays ⟨2024, 1, 1⟩) 10 0 ≤
      localToUtc "America/Sao_Paulo" (Date.toDays ⟨2024, 1, 1⟩) 10 0 ∧
    processTimeWindow settingsTimezone (Date.toDays ⟨2024, 1, 1⟩) "10:00-10:00" =
      .error .attributeError :=
  c4_no_invalid_window_validation "America/Sao_Paulo" (Date.toDays ⟨2024, 1, 1⟩)
    "10:00-10:00" 10 0 10 0 rfl rfl rfl (by decide)

/-- C9: regenerating an unchanged event twice yields the same persisted
occurrence set as regenerating it once — the same rows (hence the same count
and the same (start_at, end_at) intervals), never a growing set — and the
same returned list; regeneration deletes the event's persisted occurrences
before inserting the freshly expanded ones, and a failed expansion rolls the
unit of work back. -/
theorem c9_regenerate_idempotent (tz? : Option String) (e : EventModel) (s : AppState) :
    occurrencesOf (regenerate tz? e (regenerate tz? e s).1).1 e.id =
      occurrencesOf (regenerate tz? e s).1 e.id ∧
    (regenerate tz? e (regenerate tz? e s).1).2 = (regenerate tz? e s).2 := by
  cases hg : generateOccurrencesWithTz tz? e with
  | error err => simp [regenerate, hg]
  | ok l =>
    have hall := generateOccurrences_eid tz? e l hg
    have hl := filter_eid_of_all l e.id hall
    refine ⟨?_, by simp [regenerate, hg]⟩
    simp only [regenerate, hg, occurrencesOf]
    rw [List.filter_append, List.filter_append, List.filter_append,
      filter_eid_opposite, hl.2, List.filter_append, filter_eid_opposite, hl.1]
    simp

/-- Recurring event used for claim C10: complete recurrence data whose
weekday list contains the non-numeric entry "x" next to a valid one. -/
def c10Event : EventModel :=
  { id := 10, name := "BadWeekday", is_recurring := true,
    single_start := none, single_end := none,
    recurrence_start_date := some ⟨2024, 1, 1⟩,
    recurrence_end_date := some ⟨2024, 1, 14⟩,
    recurrence_rule := some { weekdays := ["0", "x"], time_windows := ["10:00-12:00"] } }

/-- A weekday entry that fails integer conversion makes the whole weekday
comprehension fail. -/
lemma convertWeekdays_none (l : List String) (w : String) (hw : w ∈ l)
    (hfail : pyInt? w = none) : convertWeekdays l = none := by
  induction l with
  | nil => cases hw
  | cons d ds ih =>
    rcases List.mem_cons.mp hw with rfl | hw2
    · simp [convertWeekdays, pyInt?] at hfail ⊢
      simp [hfail]
    · cases hpd : pyInt? d with
      | none => simp [convertWeekdays, pyInt?] at hpd ⊢; simp [hpd]
      | some v =>
        simp [convertWeekdays, pyInt?] at hpd ⊢
        simp [hpd, ih hw2]

/-- C10: when any weekday entry of an otherwise complete recurrence rule
fails integer conversion, the expansion returns the empty sequence with no
error — whatever the other entries and the time windows are — whereas a time
window that fails parsing is merely skipped on its own (`.ok none`), aborting
nothing. -/
theorem c10_bad_weekday_aborts_expansion (tz? : Option String) (e : EventModel)
    (r : RecurrenceRule) (sd ed : Date)
    (hrec : e.is_recurring = true) (hrule : e.recurrence_rule = some r)
    (hsd : e.recurrence_start_date = some sd) (hed : e.recurrence_end_date = some ed)
    (hwd : r.weekdays ≠ []) (htw : r.time_windows ≠ [])
    (w : String) (hw : w ∈ r.weekdays) (hfail : pyInt? w = none) :
    generateOccurrencesWithTz tz? e = .ok [] ∧
    (∀ (tz2? : Option String) (day : Int) (w2 : String),
       pyParseTimeWindow w2 = none → processTimeWindow tz2? day w2 = .ok none) := by
  constructor
  · have hguard : ¬ (r.weekdays = [] ∨ r.time_windows = []) := by
      rintro (h | h) <;> [exact hwd h; exact htw h]
    simp only [generateOccurrencesWithTz, hrec, if_true, generateRecurringWithTz,
      hrule, hsd, hed, if_neg hguard, convertWeekdays_none r.weekdays w hw hfail]
  · intro tz2? day w2 hp
    simp [processTimeWindow, hp]

/-- C10 witness: the theorem applied to the concrete event whose weekday list
is `["0", "x"]`, and the skipped-window part applied to the unparseable
window "banana". -/
theorem c10_bad_weekday_aborts_expansion_witness :
    generateOccurrencesWithTz none c10Event = .ok [] ∧
    processTimeWindow none 0 "banana" = .ok none :=
  ⟨(c10_bad_weekday_aborts_expansion none c10Event
      { weekdays := ["0", "x"], time_windows := ["10:00-12:00"] } ⟨2024, 1, 1⟩ ⟨2024, 1, 14⟩
      rfl rfl rfl rfl (by decide) (by decide) "x" (by decide) rfl).1,
   (c10_bad_weekday_aborts_expansion none c10Event
      { weekdays := ["0", "x"], time_windows := ["10:00-12:00"] } ⟨2024, 1, 1⟩ ⟨2024, 1, 14⟩
      rfl rfl rfl rfl (by decide) (by decide) "x" (by decide) rfl).2 none 0 "banana" rfl⟩

/-- Occurrence of the claim C8 scenario: 2024-06-01, 14:00Z to 16:00Z. -/
def c8Occ : EventOccurrenceModel :=
  ⟨1, (Date.toDays ⟨2024, 6, 1⟩) * 1440 + 14 * 60, (Date.toDays ⟨2024, 6, 1⟩) * 1440 + 16 * 60⟩

/-- Instant 2024-06-01T12:30Z of the claim C8 scenario. -/
def c8T1230 : Int := (Date.toDays ⟨2024, 6, 1⟩) * 1440 + 12 * 60 + 30

/-- Instant 2024-06-01T15:00Z of the claim C8 scenario. -/
def c8T1500 : Int := (Date.toDays ⟨2024, 6, 1⟩) * 1440 + 15 * 60

/-- C8 counterexample: the claim's scenario asserts that at 15:00Z check-in
is no longer available, but the code closes check-in 40 minutes before
`end_at`, i.e. at 15:20Z, so at 15:00Z check-in is still available and the
scenario's conjunction is false. -/
theorem c8_scenario_counterexample :
    ¬ (is_checkin_available c8Occ c8T1230 = true ∧
       is_checkout_available c8Occ c8T1230 = false ∧
       is_checkin_available c8Occ c8T1500 = false ∧
       is_checkout_available c8Occ c8T1500 = true) := by
  decide

/-- C8 amended: at 12:30Z check-in is available (window opens 12:00Z) and
check-out is not; at 15:00Z both check-in (window closes only at 15:20Z) and
check-out are available. -/
theorem c8_scenario_amended :
    is_checkin_available c8Occ c8T1230 = true ∧
    is_checkout_available c8Occ c8T1230 = false ∧
    is_checkin_available c8Occ c8T1500 = true ∧
    is_checkout_available c8Occ c8T1500 = true := by
  decide

/-- C5: with the check-in window open and no prior attendance, a check-in of
a participant under 18 today persists a row whose only code field is the
hash of the generated plaintext `secrets.token_hex(3).upper()` and returns
that plaintext to the caller (the sole time it exists outside the hash);
the code is a fixed-length (6 for 3 CSPRNG bytes) uppercase alphanumeric
string; for a participant aged 18 or over no code is generated and
`code_hash` is null.  On check-out in an open window of a not-yet-checked-out
row: for a minor, an empty supplied code is rejected with `CodeRequired`, a
code whose hash differs from the stored `code_hash` is rejected with
`InvalidCode`, and a code whose hash equals the stored one (in particular the
original plaintext, whose hash was stored at check-in) succeeds and records
`checkout_by_participant_id`; for an adult the code is never examined. -/
theorem c5_minor_code_lifecycle (hashFn : String → String) (oid : Int)
    (occ : EventOccurrenceModel) (p : ParticipantModel) (today : Date)
    (now now2 : Int) (entropy : List Nat) (att : AttendanceModel)
    (byId : Int) (c : String) :
    (is_checkin_available occ now = true → p.age_on today < 18 →
      checkin hashFn oid occ p none today now entropy =
        .ok ({ occurrence_id := oid, participant_id := p.id, checkin_at := now,
               checkout_at := none,
               code_hash := some (hashFn (pyUpper (token_hex entropy))),
               checkout_by_participant_id := none },
             some (pyUpper (token_hex entropy)))) ∧
    (entropy.length = 3 → (∀ b ∈ entropy, b < 256) →
      (pyUpper (token_hex entropy)).length = 6 ∧
      ∀ ch ∈ (pyUpper (token_hex entropy)).toList, isUpperAlnum ch = true) ∧
    (is_checkin_available occ now = true → 18 ≤ p.age_on today →
      checkin hashFn oid occ p none today now entropy =
        .ok ({ occurrence_id := oid, participant_id := p.id, checkin_at := now,
               checkout_at := none, code_hash := none,
               checkout_by_participant_id := none }, none)) ∧
    (is_checkout_available occ now2 = true → p.age_on today < 18 →
      att.checkout_at = none →
      checkout hashFn occ p (some att) byId "" today now2 = .error .codeRequired) ∧
    (is_checkout_available occ now2 = true → p.age_on today < 18 →
      att.checkout_at = none → c ≠ "" → att.code_hash ≠ some (hashFn c) →
      checkout hashFn occ p (some att) byId c today now2 = .error .invalidCode) ∧
    (is_checkout_available occ now2 = true → p.age_on today < 18 →
      att.checkout_at = none → c ≠ "" → att.code_hash = some (hashFn c) →
      checkout hashFn occ p (some att) byId c today now2 =
        .ok { att with checkout_at := some now2,
                       checkout_by_participant_id := some byId }) ∧
    (is_checkout_available occ now2 = true → 18 ≤ p.age_on today →
      att.checkout_at = none →
      checkout hashFn occ p (some att) byId c today now2 =
        .ok { att with checkout_at := some now2,
                       checkout_by_participant_id := some byId }) := by
  refine ⟨?_, ?_, ?_, ?_, ?_, ?_, ?_⟩
  · intro hwin hage
    simp [checkin, hwin, hage]
  · intro hlen hb
    have := code_shape entropy hb
    rw [hlen] at this
    exact this
  · intro hwin hage
    have hage2 : ¬ p.age_on today < 18 := by omega
    simp [checkin, hwin, hage2]
  · intro hwin hage hco
    simp [checkout, hwin, hage, hco]
  · intro hwin hage hco hcne hmis
    simp [checkout, hwin, hage, hco, hcne, hmis]
  · intro hwin hage hco hcne hmatch
    simp [checkout, hwin, hage, hco, hcne, hmatch]
  · intro hwin hage hco
    have hage2 : ¬ p.age_on today < 18 := by omega
    simp [checkout, hwin, hage2, hco]

/-- Participant used in the C5 witness who is a minor on 2024-06-01. -/
def c5Minor : ParticipantModel := ⟨21, "Pedro Silva", ⟨2010, 1, 1⟩, some 1⟩

/-- Participant used in the C5 witness who is an adult on 2024-06-01. -/
def c5Adult : ParticipantModel := ⟨22, "Joao Silva", ⟨1985, 3, 15⟩, none⟩

/-- Occurrence used in the C5 and C6 witnesses (start 120, end 240 minutes,
so the check-in window is [0, 200] and the check-out window [120, 240]). -/
def c56Occ : EventOccurrenceModel := ⟨1, 120, 240⟩

/-- Attendance row produced by the minor check-in of the C5 witness. -/
def c5Att : AttendanceModel :=
  { occurrence_id := 7, participant_id := 21, checkin_at := 100,
    checkout_at := none, code_hash := some "0001FF",
    checkout_by_participant_id := none }

/-- C5 witness: the theorem applied with the identity as the hash stand-in,
the minor born 2010-01-01 and the adult born 1985-03-15 on 2024-06-01, the
entropy bytes [0, 1, 255] (plaintext "0001FF"), check-in at instant 100 and
check-out at instant 130 of the witness occurrence. -/
theorem c5_minor_code_lifecycle_witness :
    checkin (fun s => s) 7 c56Occ c5Minor none ⟨2024, 6, 1⟩ 100 [0, 1, 255] =
      .ok (c5Att, some "0001FF") ∧
    ((pyUpper (token_hex [0, 1, 255])).length = 6 ∧
      ∀ ch ∈ (pyUpper (token_hex [0, 1, 255])).toList, isUpperAlnum ch = true) ∧
    checkin (fun s => s) 7 c56Occ c5Adult none ⟨2024, 6, 1⟩ 100 [0, 1, 255] =
      .ok ({ occurrence_id := 7, participant_id := 22, checkin_at := 100,
             checkout_at := none, code_hash := none,
             checkout_by_participant_id := none }, none) ∧
    checkout (fun s => s) c56Occ c5Minor (some c5Att) 1 "" ⟨2024, 6, 1⟩ 130 =
      .error .codeRequired ∧
    checkout (fun s => s) c56Occ c5Minor (some c5Att) 1 "WRONG" ⟨2024, 6, 1⟩ 130 =
      .error .invalidCode ∧
    checkout (fun s => s) c56Occ c5Minor (some c5Att) 1 "0001FF" ⟨2024, 6, 1⟩ 130 =
      .ok { c5Att with checkout_at := some 130, checkout_by_participant_id := some 1 } ∧
    checkout (fun s => s) c56Occ c5Adult (some c5Att) 1 "IGNORED" ⟨2024, 6, 1⟩ 130 =
      .ok { c5Att with checkout_at := some 130, checkout_by_participant_id := some 1 } := by
  refine ⟨?_, ?_, ?_, ?_, ?_, ?_, ?_⟩
  · exact (c5_minor_code_lifecycle (fun s => s) 7 c56Occ c5Minor ⟨2024, 6, 1⟩ 100 130
      [0, 1, 255] c5Att 1 "x").1 (by decide) (by decide)
  · exact (c5_minor_code_lifecycle (fun s => s) 7 c56Occ c5Minor ⟨2024, 6, 1⟩ 100 130
      [0, 1, 255] c5Att 1 "x").2.1 rfl (by decide)
  · exact (c5_minor_code_lifecycle (fun s => s) 7 c56Occ c5Adult ⟨2024, 6, 1⟩ 100 130
      [0, 1, 255] c5Att 1 "x").2.2.1 (by decide) (by decide)
  · exact (c5_minor_code_lifecycle (fun s => s) 7 c56Occ c5Minor ⟨2024, 6, 1⟩ 100 130
      [0, 1, 255] c5Att 1 "x").2.2.2.1 (by decide) (by decide) rfl
  · exact (c5_minor_code_lifecycle (fun s => s) 7 c56Occ c5Minor ⟨2024, 6, 1⟩ 100 130
      [0, 1, 255] c5Att 1 "WRONG").2.2.2.2.1 (by decide) (by decide) rfl (by decide) (by decide)
  · exact (c5_minor_code_lifecycle (fun s => s) 7 c56Occ c5Minor ⟨2024, 6, 1⟩ 100 130
      [0, 1, 255] c5Att 1 "0001FF").2.2.2.2.2.1 (by decide) (by decide) rfl (by decide) (by decide)
  · exact (c5_minor_code_lifecycle (fun s => s) 7 c56Occ c5Adult ⟨2024, 6, 1⟩ 100 130
      [0, 1, 255] c5Att 1 "IGNORED").2.2.2.2.2.2 (by decide) (by decide) rfl

/-- C6: with the relevant availability window open, a check-in on a pair
that already has an attendance row is rejected with `AlreadyCheckedIn`, a
check-out on a pair with no row is rejected with `NotCheckedIn`, a check-out
on a row whose `checkout_at` is set is rejected with `AlreadyCheckedOut`,
and each such rejected call leaves the persisted attendance table exactly as
it was. -/
theorem c6_error_paths_leave_state (hashFn : String → String)
    (store : List AttendanceModel) (oid : Int) (occ : EventOccurrenceModel)
    (p : ParticipantModel) (today : Date) (now : Int) (entropy : List Nat)
    (byId : Int) (c : String) :
    (is_checkin_available occ now = true → findAttendance store oid p.id ≠ none →
      checkinOp hashFn store oid occ p today now entropy =
        (store, .error .alreadyCheckedIn)) ∧
    (is_checkout_available occ now = true → findAttendance store oid p.id = none →
      checkoutOp hashFn store oid occ p byId c today now =
        (store, .error .notCheckedIn)) ∧
    (is_checkout_available occ now = true →
      ∀ att, findAttendance store oid p.id = some att → att.checkout_at ≠ none →
      checkoutOp hashFn store oid occ p byId c today now =
        (store, .error .alreadyCheckedOut)) := by
  refine ⟨?_, ?_, ?_⟩
  · intro hwin hne
    have hs : (findAttendance store oid p.id).isSome = true :=
      Option.isSome_iff_ne_none.mpr hne
    simp [checkinOp, checkin, hwin, hs]
  · intro hwin hfind
    simp [checkoutOp, checkout, hwin, hfind]
  · intro hwin att hfind hca
    have hs : att.checkout_at.isSome = true := Option.isSome_iff_ne_none.mpr hca
    simp [checkoutOp, checkout, hwin, hfind, hs]

/-- Attendance row (not yet checked out) used in the C6 witness. -/
def c6AttOpen : AttendanceModel :=
  { occurrence_id := 5, participant_id := 21, checkin_at := 100,
    checkout_at := none, code_hash := none, checkout_by_participant_id := none }

/-- Attendance row already checked out, used in the C6 witness. -/
def c6AttClosed : AttendanceModel :=
  { c6AttOpen with checkout_at := some 150 }

/-- C6 witness: the theorem applied at instant 130 of the witness occurrence
(both windows open) to a store already holding the pair's row (check-in), to
the empty store (check-out), and to a store whose row is already checked out
(check-out). -/
theorem c6_error_paths_leave_state_witness :
    checkinOp (fun s => s) [c6AttOpen] 5 c56Occ c5Minor ⟨2024, 6, 1⟩ 130 [0, 1, 255] =
      ([c6AttOpen], .error .alreadyCheckedIn) ∧
    checkoutOp (fun s => s) [] 5 c56Occ c5Minor 1 "0001FF" ⟨2024, 6, 1⟩ 130 =
      ([], .error .notCheckedIn) ∧
    checkoutOp (fun s => s) [c6AttClosed] 5 c56Occ c5Minor 1 "0001FF" ⟨2024, 6, 1⟩ 130 =
      ([c6AttClosed], .error .alreadyCheckedOut) := by
  refine ⟨?_, ?_, ?_⟩
  · exact (c6_error_paths_leave_state (fun s => s) [c6AttOpen] 5 c56Occ c5Minor
      ⟨2024, 6, 1⟩ 130 [0, 1, 255] 1 "0001FF").1 (by decide) (by decide)
  · exact (c6_error_paths_leave_state (fun s => s) [] 5 c56Occ c5Minor
      ⟨2024, 6, 1⟩ 130 [0, 1, 255] 1 "0001FF").2.1 (by decide) (by decide)
  · exact (c6_error_paths_leave_state (fun s => s) [c6AttClosed] 5 c56Occ c5Minor
      ⟨2024, 6, 1⟩ 130 [0, 1, 255] 1 "0001FF").2.2 (by decide) c6AttClosed rfl (by decide)

end EventOrganizer
